import Mathlib

/-!
Shallow embedding of the co-evolutionary red-team framework
(`red_team/src/core/framework.py`, `red_team/src/core/defenses.py`,
`red_team/src/core/seed.py`, and the `EvolutionOrchestrator` in
`counter_intelligence_system.py`), together with proofs about the
generation loop, the defense registry and the adaptation engine.

Python machine types are modelled as follows: `int` becomes `Int` (or
`Nat` for counters that only ever grow from 0), `float` ratios and
score arithmetic become `ℚ` (every value that actually occurs is an
exact small rational, far from any binary-rounding boundary), payload
values become the closed variant type `Payload`, and the
`try`/`except` boundary around a defense's evaluation becomes
`Except String`.  Timestamps and console output are elided: no claim
mentions them.
-/

set_option maxRecDepth 40000

namespace RedTeam

/-! ### String helpers

Python string operations used by the defense predicates, implemented
over the character list of a `String` so that they compute by kernel
reduction: substring containment (`pat in s`), upper-casing
(`s.upper()`, ASCII as in all catalog payloads), and the single-quote
character that Python renders around `repr`-ed strings. -/

/-- The single-quote character `'` (code point 39). -/
def squoteChar : Char := Char.ofNat 39

/-- The single-quote character as a one-character string. -/
def squote : String := String.singleton squoteChar

/-- The double-quote character as a one-character string. -/
def dquote : String := String.singleton (Char.ofNat 34)

/-- `leadsWith pat l` is true when `pat` is an initial segment of `l`. -/
def leadsWith : List Char → List Char → Bool
  | [], _ => true
  | _ :: _, [] => false
  | p :: ps, c :: cs => p == c && leadsWith ps cs

/-- `containsSeq pat l`: the contiguous pattern `pat` occurs in `l`
(Python's `pat in s`; an empty pattern occurs in every string). -/
def containsSeq (pat : List Char) : List Char → Bool
  | [] => pat.isEmpty
  | c :: cs => leadsWith pat (c :: cs) || containsSeq pat cs

/-- Python's `pat in s` on strings. -/
def strHas (s pat : String) : Bool := containsSeq pat.data s.data

/-- Python's `s.upper()` (ASCII range, as in every catalog payload). -/
def upperStr (s : String) : String := String.mk (s.data.map Char.toUpper)

/-- Python's `s.count(c) ` for a single character. -/
def countChar (s : String) (c : Char) : Nat := s.data.count c

/-! ### Payload values

The closed variant type for the `Any`-typed payload values produced by
the attack catalog: `None`, `str`, `int`, `float`, `list`, `dict`.
The list and dict spines are their own inductives (rather than nested
`List`s) so that all recursion over payloads is structural and reduces
in the kernel. -/

mutual
inductive Payload where
  | pnone : Payload
  | pstr : String → Payload
  | pint : Int → Payload
  | pfloat : ℚ → Payload
  | plist : PayloadSeq → Payload
  | pdict : PayloadMap → Payload
inductive PayloadSeq where
  | nil : PayloadSeq
  | cons : Payload → PayloadSeq → PayloadSeq
inductive PayloadMap where
  | nil : PayloadMap
  | cons : String → Payload → PayloadMap → PayloadMap
end

/-- Number of elements of a payload list (`len(value)` on a `list`). -/
def PayloadSeq.size : PayloadSeq → Nat
  | .nil => 0
  | .cons _ xs => 1 + xs.size

/-- Number of keys of a payload dict (`len(value)` on a `dict`). -/
def PayloadMap.size : PayloadMap → Nat
  | .nil => 0
  | .cons _ _ xs => 1 + xs.size

/-- Python `repr` of a string: single-quoted, switching to double
quotes when the string contains `'` but no `"`, and escaping `'`
otherwise (the two cases exercised by the catalog payloads). -/
def pyReprStr (s : String) : String :=
  if s.contains squoteChar && !s.contains (Char.ofNat 34) then
    dquote ++ s ++ dquote
  else
    squote ++ String.mk (s.data.foldr
      (fun c acc => if c == squoteChar then '\\' :: c :: acc else c :: acc) []) ++ squote

mutual
/-- Python `repr` of a payload value, used for elements inside
containers (`str` of a container `repr`s its elements). -/
def pyRepr : Payload → String
  | .pnone => "None"
  | .pstr s => pyReprStr s
  | .pint n => toString n
  | .pfloat q => toString q
  | .plist xs => "[" ++ pyReprSeq xs ++ "]"
  | .pdict kvs => "\x7b" ++ pyReprMap kvs ++ "\x7d"
/-- Comma-joined `repr`s of the elements of a payload list. -/
def pyReprSeq : PayloadSeq → String
  | .nil => ""
  | .cons x .nil => pyRepr x
  | .cons x (.cons y ys) => pyRepr x ++ ", " ++ pyReprSeq (.cons y ys)
/-- Comma-joined `repr`ed key/value pairs of a payload dict. -/
def pyReprMap : PayloadMap → String
  | .nil => ""
  | .cons k v .nil => pyReprStr k ++ ": " ++ pyRepr v
  | .cons k v (.cons k2 v2 ys) =>
      pyReprStr k ++ ": " ++ pyRepr v ++ ", " ++ pyReprMap (.cons k2 v2 ys)
end

/-- Python `str(value)`: the string itself for `str`, `repr`-style
rendering for everything else. -/
def pyStr : Payload → String
  | .pstr s => s
  | v => pyRepr v

/-- `isinstance(value, str)`. -/
def Payload.isStr : Payload → Bool
  | .pstr _ => true
  | _ => false

/-- `isinstance(value, (str, int, float))`. -/
def Payload.isPrimitive : Payload → Bool
  | .pstr _ => true
  | .pint _ => true
  | .pfloat _ => true
  | _ => false

/-- `isinstance(value, (list, dict, tuple, set))` — the closed payload
variant carries exactly the `list` and `dict` shapes produced by the
attack catalog. -/
def Payload.isCollection : Payload → Bool
  | .plist _ => true
  | .pdict _ => true
  | _ => false

/-- `type(value).__name__` for the collection shapes. -/
def Payload.typeName : Payload → String
  | .plist _ => "list"
  | .pdict _ => "dict"
  | _ => ""

/-- `len(value)` for the collection shapes. -/
def Payload.collectionSize : Payload → Nat
  | .plist xs => xs.size
  | .pdict kvs => kvs.size
  | _ => 0

/-! ### Defense categories and configuration
(`framework.py`: `DefenseType`, `SeverityLevel`, `DefenseConfig`). -/

/-- `framework.py` `DefenseType`: the closed enumeration of defense
categories. -/
inductive DefenseType where
  | INPUT_VALIDATION
  | TYPE_CHECKING
  | BOUNDS_ENFORCEMENT
  | SANITIZATION
  | STATE_PROTECTION
  | RATE_LIMITING
  | CRYPTOGRAPHY
  | LOGIC_HARDENING
  | ANOMALY_DETECTION
  deriving DecidableEq

/-- The enum member's string value (`DefenseType.<member>.value`). -/
def DefenseType.value : DefenseType → String
  | .INPUT_VALIDATION => "validate_input"
  | .TYPE_CHECKING => "check_type"
  | .BOUNDS_ENFORCEMENT => "enforce_bounds"
  | .SANITIZATION => "sanitize"
  | .STATE_PROTECTION => "protect_state"
  | .RATE_LIMITING => "rate_limit"
  | .CRYPTOGRAPHY => "encrypt"
  | .LOGIC_HARDENING => "harden_logic"
  | .ANOMALY_DETECTION => "detect_anomaly"

/-- Iteration order of `for defense_type in DefenseType` (declaration
order of the Python enum). -/
def allDefenseTypes : List DefenseType :=
  [.INPUT_VALIDATION, .TYPE_CHECKING, .BOUNDS_ENFORCEMENT, .SANITIZATION,
   .STATE_PROTECTION, .RATE_LIMITING, .CRYPTOGRAPHY, .LOGIC_HARDENING,
   .ANOMALY_DETECTION]

/-- `framework.py` `SeverityLevel`. -/
inductive SeverityLevel where
  | CRITICAL
  | HIGH
  | MEDIUM
  | LOW
  | INFO
  deriving DecidableEq

/-- `framework.py` `DefenseConfig`: mutable per-category defense
state. -/
structure DefenseConfig where
  defense_type : DefenseType
  active : Bool := true
  strength : Int := 1
  threshold : ℚ := 1/2
  times_triggered : Nat := 0
  successful_blocks : Nat := 0
  false_positives : Nat := 0

/-- `DefenseConfig.effectiveness`: `successful_blocks / times_triggered`,
`0.0` when never triggered. -/
def DefenseConfig.effectiveness (c : DefenseConfig) : ℚ :=
  if c.times_triggered = 0 then 0
  else (c.successful_blocks : ℚ) / (c.times_triggered : ℚ)

/-- `DefenseConfig.strengthen`: `strength = min(10, strength + amount)`. -/
def DefenseConfig.strengthen (c : DefenseConfig) (amount : Int) : DefenseConfig :=
  { c with strength := min 10 (c.strength + amount) }

/-- `DefenseConfig.trigger`: record a trigger event, incrementing
`times_triggered` and exactly one of `successful_blocks` /
`false_positives`. -/
def DefenseConfig.trigger (c : DefenseConfig) (successful : Bool) : DefenseConfig :=
  if successful then
    { c with times_triggered := c.times_triggered + 1,
             successful_blocks := c.successful_blocks + 1 }
  else
    { c with times_triggered := c.times_triggered + 1,
             false_positives := c.false_positives + 1 }

/-! ### Defense mechanisms (`defenses.py`)

Each Python `DefenseMechanism` subclass becomes an evaluation
function.  An evaluator receives the mechanism's configuration, its
instance-local counter (only `RateLimitingDefense` has one) and the
payload, and returns a possibly-faulting `(should_block, reason)`
result together with the updated instance counter: the `Except` layer
is the fault channel that `apply_defense`'s `try`/`except` absorbs.
All seven concrete evaluators are total (they always return `.ok`). -/

/-- `InputValidationDefense.evaluate`. -/
def inputValidationCheck (cfg : DefenseConfig) (v : Payload) : Bool × String :=
  match v with
  | .pnone => (true, "Rejected: null value")
  | .pstr s =>
    if s == "" then (true, "Rejected: empty string")
    else if 4 ≤ cfg.strength then
      if !v.isPrimitive then (true, "Rejected: invalid base type")
      else (false, "Passed validation")
    else (false, "Passed validation")
  | _ =>
    if 4 ≤ cfg.strength then
      if !v.isPrimitive then (true, "Rejected: invalid base type")
      else (false, "Passed validation")
    else (false, "Passed validation")

/-- `TypeCheckingDefense.evaluate`.  The `hasattr(value, '__dict__')`
branch cannot fire on the closed payload variant (the attack catalog
produces no object payloads), so it is absorbed into the fall-through. -/
def typeCheckingCheck (_cfg : DefenseConfig) (v : Payload) : Bool × String :=
  if v.isCollection then (true, "Rejected: " ++ v.typeName ++ " type")
  else (false, "Passed type check")

/-- `BoundsEnforcementDefense.evaluate`:
`max_len = 50 - (10 - strength) * 3`; the collection branch compares
against `max_len / 2` with Python's true division. -/
def boundsCheck (cfg : DefenseConfig) (v : Payload) : Bool × String :=
  let maxLen : Int := 50 - (10 - cfg.strength) * 3
  match v with
  | .pstr s =>
    if (s.length : Int) > maxLen then
      (true, "Rejected: string too long (" ++ toString s.length ++ " > " ++
        toString maxLen ++ ")")
    else (false, "Passed bounds check")
  | _ =>
    if v.isCollection = true ∧ (v.collectionSize : ℚ) > (maxLen : ℚ) / 2 then
      (true, "Rejected: collection too large")
    else (false, "Passed bounds check")

/-- The base blacklist of `SanitizationDefense`. -/
def dangerousBase : List String :=
  [squote, dquote, ";", "--", "/*", "*/", "DROP", "DELETE", "UNION"]

/-- The additional blacklist entries used when `strength >= 8`. -/
def dangerousExt : List String := ["<", ">", "\x7b", "\x7d", "[", "]"]

/-- `SanitizationDefense.evaluate`: first blacklisted pattern found in
`str(value).upper()` blocks. -/
def sanitizationCheck (cfg : DefenseConfig) (v : Payload) : Bool × String :=
  let dangerous := dangerousBase ++ (if 8 ≤ cfg.strength then dangerousExt else [])
  let vs := upperStr (pyStr v)
  match dangerous.find? (fun pat => strHas vs pat) with
  | some pat => (true, "Rejected: dangerous pattern " ++ squote ++ pat ++ squote)
  | none => (false, "Passed sanitization")

/-- `StateProtectionDefense.evaluate`. -/
def stateProtectionCheck (_cfg : DefenseConfig) (v : Payload) : Bool × String :=
  if v.isCollection then
    let vs := pyStr v
    if strHas vs "_protected" || strHas vs "_private" then
      (true, "Rejected: state injection attempt")
    else if strHas vs "exec" || strHas vs "eval" then
      (true, "Rejected: code injection attempt")
    else (false, "Passed state protection")
  else (false, "Passed state protection")

/-- `CryptographyDefense.evaluate`. -/
def cryptographyCheck (cfg : DefenseConfig) (v : Payload) : Bool × String :=
  if 7 ≤ cfg.strength then
    match v with
    | .pstr s =>
      if s.length % 2 ≠ 0 ∧ 0 < countChar s squoteChar then
        (true, "Rejected: crypto validation failed")
      else (false, "Passed crypto check")
    | _ => (false, "Passed crypto check")
  else (false, "Passed crypto check")

/-- Lift a pure (never-faulting, counter-ignoring) `evaluate` into the
common evaluator shape. -/
def pureEval (check : DefenseConfig → Payload → Bool × String) :
    DefenseConfig → Nat → Payload → (Except String (Bool × String)) × Nat :=
  fun cfg rc v => (Except.ok (check cfg v), rc)

/-- `RateLimitingDefense.evaluate`: increments the instance's
`request_count`; blocks and resets it when `strength >= 5` and the
count exceeds `strength * 2`. -/
def rateLimitingEval (cfg : DefenseConfig) (rc : Nat) (_v : Payload) :
    (Except String (Bool × String)) × Nat :=
  let rc' := rc + 1
  if 5 ≤ cfg.strength ∧ (rc' : Int) > cfg.strength * 2 then
    (Except.ok (true, "Rejected: rate limit exceeded"), 0)
  else
    (Except.ok (false, "Passed rate limit"), rc')

/-! ### Defense framework manager (`framework.py` `DefenseFramework`) -/

/-- A registered defense mechanism: its mutable configuration, its
instance-local counter (`RateLimitingDefense.request_count`; unused by
the other mechanisms) and its `evaluate` method. -/
structure Mechanism where
  config : DefenseConfig
  reqCount : Nat := 0
  evalFn : DefenseConfig → Nat → Payload → (Except String (Bool × String)) × Nat

/-- `DefenseMechanism.execute`: evaluate, then record the trigger.  A
fault in `evaluate` skips the trigger but keeps any instance-counter
mutation that already happened. -/
def Mechanism.executeM (m : Mechanism) (v : Payload) :
    (Except String (Bool × String)) × Mechanism :=
  match m.evalFn m.config m.reqCount v with
  | (.ok (b, r), rc') =>
      (.ok (b, r), { m with reqCount := rc', config := m.config.trigger b })
  | (.error e, rc') => (.error e, { m with reqCount := rc' })

/-- The defense registry: `self.defenses`, a map from category to
registered mechanism (`none` for categories never registered). -/
structure DefenseFramework where
  defenses : DefenseType → Option Mechanism

/-- Store an updated mechanism under its category key. -/
def DefenseFramework.setMech (fw : DefenseFramework) (dt : DefenseType)
    (m : Mechanism) : DefenseFramework :=
  ⟨fun dt' => if dt' = dt then some m else fw.defenses dt'⟩

/-- `DefenseFramework.apply_defense`. -/
def applyDefense (fw : DefenseFramework) (dt : DefenseType) (v : Payload) :
    (Bool × String) × DefenseFramework :=
  match fw.defenses dt with
  | none => ((false, "Defense not found"), fw)
  | some m =>
    if !m.config.active then ((false, "Defense inactive"), fw)
    else
      match m.executeM v with
      | (.ok br, m') => (br, fw.setMech dt m')
      | (.error e, m') =>
          ((false, "Defense execution error: " ++ e), fw.setMech dt m')

/-- `DefenseFramework.activate`: a no-op on unregistered categories. -/
def activateFw (fw : DefenseFramework) (dt : DefenseType) : DefenseFramework :=
  match fw.defenses dt with
  | none => fw
  | some m => fw.setMech dt { m with config := { m.config with active := true } }

/-- `DefenseFramework.strengthen`: a no-op on unregistered categories. -/
def strengthenFw (fw : DefenseFramework) (dt : DefenseType) (amount : Int) :
    DefenseFramework :=
  match fw.defenses dt with
  | none => fw
  | some m => fw.setMech dt { m with config := m.config.strengthen amount }

/-- One entry of `DefenseFramework.get_snapshot`. -/
structure SnapshotEntry where
  active : Bool
  strength : Int
  triggered : Nat
  effectiveness : ℚ

/-- `DefenseFramework.get_snapshot`, keyed by category (the Python
dict is keyed by the category's `value` string, a bijection). -/
def getSnapshot (fw : DefenseFramework) (dt : DefenseType) : Option SnapshotEntry :=
  (fw.defenses dt).map fun m =>
    ⟨m.config.active, m.config.strength, m.config.times_triggered,
     m.config.effectiveness⟩

/-- `DefenseFramework._initialize_defenses` with the configured
`initial_strength`: the first five categories active at that strength,
`RATE_LIMITING` and `CRYPTOGRAPHY` registered inactive,
`LOGIC_HARDENING` and `ANOMALY_DETECTION` never registered. -/
def initFramework (initialStrength : Int) : DefenseFramework :=
  ⟨fun dt =>
    match dt with
    | .INPUT_VALIDATION =>
        some ⟨{ defense_type := dt, strength := initialStrength }, 0,
              pureEval inputValidationCheck⟩
    | .TYPE_CHECKING =>
        some ⟨{ defense_type := dt, strength := initialStrength }, 0,
              pureEval typeCheckingCheck⟩
    | .BOUNDS_ENFORCEMENT =>
        some ⟨{ defense_type := dt, strength := initialStrength }, 0,
              pureEval boundsCheck⟩
    | .SANITIZATION =>
        some ⟨{ defense_type := dt, strength := initialStrength }, 0,
              pureEval sanitizationCheck⟩
    | .STATE_PROTECTION =>
        some ⟨{ defense_type := dt, strength := initialStrength }, 0,
              pureEval stateProtectionCheck⟩
    | .RATE_LIMITING =>
        some ⟨{ defense_type := dt, active := false }, 0, rateLimitingEval⟩
    | .CRYPTOGRAPHY =>
        some ⟨{ defense_type := dt, active := false }, 0,
              pureEval cryptographyCheck⟩
    | .LOGIC_HARDENING => none
    | .ANOMALY_DETECTION => none⟩

/-- The framework of a freshly constructed seed: the default
configuration has `initial_strength = 1`. -/
def freshFramework : DefenseFramework := initFramework 1

/-! ### Attack patterns and the red-team executor (`seed.py`) -/

/-- `framework.py` `AttackPattern`.  The payload generator is a
function of the executor's `generation_number` (the Python generators
are closures over it) and may fault — `execute_attack` catches
generator faults. -/
structure AttackPattern where
  defense_type : DefenseType
  payload_generator : Nat → Except String Payload
  description : String
  difficulty : Int := 1
  success_count : Nat := 0
  attempt_count : Nat := 0
  adaptations : Nat := 0

/-- `AttackPattern.success_rate`: `success_count / attempt_count`,
`0.0` with no attempts. -/
def AttackPattern.success_rate (p : AttackPattern) : ℚ :=
  if p.attempt_count = 0 then 0
  else (p.success_count : ℚ) / (p.attempt_count : ℚ)

/-- `AttackPattern.record_attempt`. -/
def AttackPattern.recordAttempt (p : AttackPattern) (succeeded : Bool) : AttackPattern :=
  if succeeded then
    { p with attempt_count := p.attempt_count + 1,
             success_count := p.success_count + 1 }
  else { p with attempt_count := p.attempt_count + 1 }

/-- `AttackPatternLibrary.null_injection`. -/
def nullInjection : Nat → Except String Payload := fun _ => .ok .pnone

/-- `AttackPatternLibrary.empty_string`. -/
def emptyStringAttack : Nat → Except String Payload := fun _ => .ok (.pstr "")

/-- `AttackPatternLibrary.type_confusion_list`. -/
def typeConfusionList : Nat → Except String Payload := fun _ =>
  .ok (.plist (.cons (.pstr "malicious")
        (.cons (.pstr "payload") (.cons (.pstr "data") .nil))))

/-- `AttackPatternLibrary.type_confusion_dict`. -/
def typeConfusionDict : Nat → Except String Payload := fun _ =>
  .ok (.pdict (.cons "payload" (.pstr "malicious")
        (.cons "exec" (.pstr "true") .nil)))

/-- `AttackPatternLibrary.buffer_overflow_small`: `"A" * (500 + gen * 100)`. -/
def bufferOverflowSmall : Nat → Except String Payload := fun gen =>
  .ok (.pstr (String.mk (List.replicate (500 + gen * 100) 'A')))

/-- `AttackPatternLibrary.sql_injection`: `"'; DROP TABLE users--"`. -/
def sqlInjection : Nat → Except String Payload := fun _ =>
  .ok (.pstr (squote ++ "; DROP TABLE users--"))

/-- `AttackPatternLibrary.sql_injection_obfuscated`. -/
def sqlInjectionObfuscated : Nat → Except String Payload := fun gen =>
  if gen < 3 then .ok (.pstr ("1" ++ squote ++ "/**/OR/**/1=1"))
  else .ok (.pstr ("1" ++ squote ++ "/*!50000OR*/" ++ squote ++ "1" ++ squote
                   ++ "=" ++ squote ++ "1"))

/-- `AttackPatternLibrary.state_corruption`. -/
def stateCorruption : Nat → Except String Payload := fun _ =>
  .ok (.pdict (.cons "_protected" (.pstr "corrupted")
        (.cons "_internal" (.pstr "compromised") .nil)))

/-- `AttackPatternLibrary.code_injection`. -/
def codeInjection : Nat → Except String Payload := fun _ =>
  .ok (.pdict (.cons "eval" (.pstr ("exec(" ++ squote ++ "malicious_code" ++ squote ++ ")"))
        (.cons "__builtins__" (.pstr "override") .nil)))

/-- The fixed pattern catalog of `RedTeamExecutor._initialize_patterns`:
`(description, target category, generator, base difficulty)` in source
order. -/
def patternCatalog : List (String × DefenseType × (Nat → Except String Payload) × Int) :=
  [("Null injection attack", .INPUT_VALIDATION, nullInjection, 1),
   ("Empty string bypass", .INPUT_VALIDATION, emptyStringAttack, 1),
   ("List type confusion", .TYPE_CHECKING, typeConfusionList, 2),
   ("Dict type confusion", .TYPE_CHECKING, typeConfusionDict, 2),
   ("String buffer overflow", .BOUNDS_ENFORCEMENT, bufferOverflowSmall, 3),
   ("SQL injection", .SANITIZATION, sqlInjection, 4),
   ("Obfuscated SQL injection", .SANITIZATION, sqlInjectionObfuscated, 5),
   ("State object corruption", .STATE_PROTECTION, stateCorruption, 3),
   ("Code execution injection", .STATE_PROTECTION, codeInjection, 5)]

/-- `RedTeamExecutor._initialize_patterns`: the first
`min(len(patterns), initial_population_size)` catalog entries, in
order. -/
def initPatterns (populationSize : Nat) : List AttackPattern :=
  (patternCatalog.take (min patternCatalog.length populationSize)).map
    fun e => { defense_type := e.2.1, payload_generator := e.2.2.1,
               description := e.1, difficulty := e.2.2.2 }

/-- The active pattern set of a freshly constructed executor: the
default configuration has `initial_population_size = 6`. -/
def freshPatterns : List AttackPattern := initPatterns 6

/-- `framework.py` `Exploit` (timestamp elided — no claim mentions it). -/
structure Exploit where
  vector : DefenseType
  description : String
  payload : Payload
  severity : SeverityLevel
  difficulty : Int
  blocked : Bool := false
  defense_reason : String := ""

/-- `RedTeamExecutor._calculate_severity`. -/
def calcSeverity (p : AttackPattern) : SeverityLevel :=
  if 5 ≤ p.difficulty then .CRITICAL
  else if 4 ≤ p.difficulty then .HIGH
  else if 2 ≤ p.difficulty then .MEDIUM
  else .LOW

/-- `RedTeamExecutor.execute_attack`: generate the payload (a
generator fault is caught and replaced by `None`), apply the target
defense, record the attempt (success = not blocked) and build the
`Exploit`. -/
def executeAttack (fw : DefenseFramework) (genNumber : Nat) (pattern : AttackPattern) :
    Exploit × AttackPattern × DefenseFramework :=
  let payload := match pattern.payload_generator genNumber with
    | .ok p => p
    | .error _ => .pnone
  let res := applyDefense fw pattern.defense_type payload
  let pattern' := pattern.recordAttempt (!res.1.1)
  ({ vector := pattern.defense_type, description := pattern.description,
     payload := payload, severity := calcSeverity pattern,
     difficulty := pattern.difficulty, blocked := res.1.1,
     defense_reason := res.1.2 },
   pattern', res.2)

/-- `RedTeamExecutor.execute_suite`: run every active pattern once, in
registry order, returning `(exploits, blocked_count, total)` together
with the mutated pattern list and framework. -/
def executeSuite (fw : DefenseFramework) (genNumber : Nat) :
    List AttackPattern → (List Exploit × Nat × Nat) × List AttackPattern × DefenseFramework
  | [] => (([], 0, 0), [], fw)
  | p :: ps =>
    let r := executeAttack fw genNumber p
    let rest := executeSuite r.2.2 genNumber ps
    ((r.1 :: rest.1.1,
      (if r.1.blocked then rest.1.2.1 + 1 else rest.1.2.1), rest.1.2.2 + 1),
     r.2.1 :: rest.2.1, rest.2.2)

/-! ### Analysis and adaptation (`seed.py` `RedTeamAdaptationEngine`) -/

/-- `framework.py` `TestIssue` (timestamp elided). -/
structure TestIssue where
  issue_type : String
  description : String
  severity : SeverityLevel
  affected_defense : Option DefenseType := none
  root_cause : String := ""
  fix_applied : String := ""
  fix_verified : Bool := false

/-- The keys of `analyze_results`' `failures_by_defense` grouping, in
first-occurrence (Python dict insertion) order: the distinct target
categories of the unblocked exploits. -/
def failVecsFrom (acc : List DefenseType) : List Exploit → List DefenseType
  | [] => acc
  | e :: es =>
    if e.blocked then failVecsFrom acc es
    else if e.vector ∈ acc then failVecsFrom acc es
    else failVecsFrom (acc ++ [e.vector]) es

/-- Distinct target categories with at least one unblocked exploit. -/
def failureVectors (exploits : List Exploit) : List DefenseType :=
  failVecsFrom [] exploits

/-- The `TestIssue` that `analyze_results` emits for one failed
category. -/
def mkDefenseIssue (exploits : List Exploit) (dt : DefenseType) : TestIssue :=
  let n := (exploits.filter (fun e => !e.blocked && e.vector == dt)).length
  { issue_type := "DEFENSE_FAILURE",
    description := dt.value ++ " failed against " ++ toString n ++ " attacks",
    severity := if 2 < n then SeverityLevel.CRITICAL else SeverityLevel.HIGH,
    affected_defense := some dt }

/-- `RedTeamAdaptationEngine.analyze_results`: one issue per category
with at least one unblocked exploit. -/
def analyzeResults (exploits : List Exploit) : List TestIssue :=
  (failureVectors exploits).map (mkDefenseIssue exploits)

/-- `RedTeamAdaptationEngine._mutate_payload`: the category-specific
mutation increments `difficulty` (no clamp, no `adaptations` update in
the source). -/
def mutatePayload (p : AttackPattern) : AttackPattern :=
  match p.defense_type with
  | .BOUNDS_ENFORCEMENT => { p with difficulty := p.difficulty + 1 }
  | .SANITIZATION => { p with difficulty := p.difficulty + 1 }
  | .TYPE_CHECKING => { p with difficulty := p.difficulty + 1 }
  | _ => p

/-- The per-pattern body of `RedTeamAdaptationEngine.adapt_patterns`
(the appended log strings are elided — the loop mutates each pattern
independently). -/
def adaptOne (p : AttackPattern) : AttackPattern :=
  if p.success_rate > (0.6 : ℚ) then
    { p with difficulty := min 10 (p.difficulty + 1),
             adaptations := p.adaptations + 1 }
  else if p.success_rate < (0.2 : ℚ) ∧ 2 < p.attempt_count then mutatePayload p
  else p

/-- `RedTeamAdaptationEngine.adapt_patterns` on the executor's pattern
list. -/
def adaptPatterns (patterns : List AttackPattern) : List AttackPattern :=
  patterns.map adaptOne

/-! ### Generation orchestrator
(`counter_intelligence_system.py` `EvolutionOrchestrator`) -/

/-- `framework.py` `GenerationReport` (timestamp and `phase` marker
elided — the phase field is set to `TESTING` then `VERIFICATION` and
never read by the core). -/
structure GenerationReport where
  generation : Nat
  exploits : List Exploit := []
  issues : List TestIssue := []
  defenses_snapshot : DefenseType → Option SnapshotEntry := fun _ => none
  fitness_score : ℚ := 0
  code_iterations : Nat := 0
  attacks_blocked : Nat := 0
  attacks_total : Nat := 0

/-- `GenerationReport.success_rate`: percentage of attacks blocked,
`0.0` when `attacks_total == 0`. -/
def GenerationReport.success_rate (r : GenerationReport) : ℚ :=
  if r.attacks_total = 0 then 0
  else ((r.attacks_blocked : ℚ) / (r.attacks_total : ℚ)) * 100

/-- The mutable state owned by `EvolutionOrchestrator` together with
its `EvolvableSeed` and `RedTeamExecutor` collaborators: the defense
framework, the active pattern list, the executor's
`generation_number`, the evolution log and the fix counter. -/
structure OrchestratorState where
  fw : DefenseFramework
  patterns : List AttackPattern
  generationNumber : Nat := 0
  evolutionLog : List GenerationReport := []
  codeIterationCount : Nat := 0

/-- The fixed complementary-category table of
`_apply_defensive_adaptations` (strategy 2). -/
def defenseRelationships : DefenseType → Option (List DefenseType)
  | .INPUT_VALIDATION => some [.SANITIZATION, .BOUNDS_ENFORCEMENT]
  | .TYPE_CHECKING => some [.BOUNDS_ENFORCEMENT]
  | .SANITIZATION => some [.CRYPTOGRAPHY, .STATE_PROTECTION]
  | .BOUNDS_ENFORCEMENT => some [.RATE_LIMITING]
  | _ => none

/-- One complementary category of strategy 2: look it up in the fresh
snapshot and activate it when inactive.  A category missing from the
snapshot is a Python `KeyError` (unreachable for the fixed table on a
framework with the seven slots registered). -/
def activateComplementary (acc : DefenseFramework × List String) (comp : DefenseType) :
    Except String (DefenseFramework × List String) :=
  match getSnapshot acc.1 comp with
  | none => .error ("KeyError: " ++ comp.value)
  | some entry =>
    if !entry.active then
      .ok (activateFw acc.1 comp,
           acc.2 ++ ["🧬 Activated " ++ comp.value ++ " (complementary defense)"])
    else .ok acc

/-- Strategy 2's outer loop body for one failed category. -/
def complementaryFor (acc : DefenseFramework × List String) (failedDefense : DefenseType) :
    Except String (DefenseFramework × List String) :=
  match defenseRelationships failedDefense with
  | none => .ok acc
  | some comps => comps.foldlM activateComplementary acc

/-- Strategy 1's loop body: strengthen one failed category by +2. -/
def strengthenFailed (acc : DefenseFramework × List String) (dt : DefenseType) :
    DefenseFramework × List String :=
  (strengthenFw acc.1 dt 2,
   acc.2 ++ ["💪 Strengthened " ++ dt.value ++ " defense (strength +2)"])

/-- `EvolutionOrchestrator._apply_defensive_adaptations`: strengthen
every failed category by +2, activate inactive complementary
categories, and activate everything when the block fraction is below
50%.  The Python `set` of failed categories iterates in unspecified
order; it is modelled in first-occurrence order — the per-category
effects land on distinct slots and commute.  Numeric formatting inside
the returned log strings is elided; only their number feeds back (as
`code_iterations`). -/
def applyDefensiveAdaptations (fw : DefenseFramework) (_issues : List TestIssue)
    (exploits : List Exploit) : Except String (DefenseFramework × List String) := do
  let failed := failureVectors exploits
  let acc1 := failed.foldl strengthenFailed (fw, [])
  let acc2 ← failed.foldlM complementaryFor acc1
  let fitness : ℚ :=
    if exploits.length ≠ 0 then
      ((exploits.countP (fun e => e.blocked) : ℚ) / (exploits.length : ℚ)) * 100
    else 0
  if fitness < 50 then
    pure (allDefenseTypes.foldl activateFw acc2.1,
          acc2.2 ++ ["🚨 Emergency: Activated ALL defenses"])
  else pure acc2

/-- The pure tail of `run_generation` once the defensive adaptations
have succeeded: score fitness, apply the attack adaptation, build the
report and the successor state. -/
def buildGenerationOutcome (s : OrchestratorState) (genNum : Nat)
    (suite : (List Exploit × Nat × Nat) × List AttackPattern × DefenseFramework)
    (fixRes : DefenseFramework × List String) :
    GenerationReport × OrchestratorState :=
  let fitness : ℚ :=
    if 0 < suite.1.2.2 then ((suite.1.2.1 : ℚ) / (suite.1.2.2 : ℚ)) * 100 else 0
  let report : GenerationReport :=
    { generation := genNum, exploits := suite.1.1,
      issues := analyzeResults suite.1.1,
      defenses_snapshot := getSnapshot fixRes.1,
      fitness_score := fitness, code_iterations := fixRes.2.length,
      attacks_blocked := suite.1.2.1, attacks_total := suite.1.2.2 }
  (report,
   { fw := fixRes.1, patterns := adaptPatterns suite.2.1,
     generationNumber := genNum,
     evolutionLog := s.evolutionLog ++ [report],
     codeIterationCount := s.codeIterationCount + fixRes.2.length })

/-- `EvolutionOrchestrator.run_generation`: set the executor's
generation number, execute the suite, analyze, apply defensive then
attack adaptations, score and snapshot into the report, and append it
to the log.  The `Except` layer carries the (unreachable on a fully
registered framework) `KeyError` of strategy 2. -/
def runGeneration (s : OrchestratorState) (genNum : Nat) :
    Except String (GenerationReport × OrchestratorState) := do
  let suite := executeSuite s.fw genNum s.patterns
  let fixRes ← applyDefensiveAdaptations suite.2.2 (analyzeResults suite.1.1)
                 suite.1.1
  pure (buildGenerationOutcome s genNum suite fixRes)

/-- The per-category body of
`EvolutionOrchestrator._apply_breakthrough_mutations`:
`strengthen_defense(dt, amount=3)` then `activate_defense(dt)`. -/
def breakStep (fw : DefenseFramework) (dt : DefenseType) : DefenseFramework :=
  activateFw (strengthenFw fw dt 3) dt

/-- `EvolutionOrchestrator._apply_breakthrough_mutations`: the
breakthrough pass over every `DefenseType` member. -/
def applyBreakthroughMutations (fw : DefenseFramework) : DefenseFramework :=
  allDefenseTypes.foldl breakStep fw

/-- Python `max` of a nonempty list (`0` on `[]`, which
`_check_stagnation` never passes). -/
def listMax : List ℚ → ℚ
  | [] => 0
  | x :: xs => xs.foldl max x

/-- Python `min` of a nonempty list (`0` on `[]`, never passed). -/
def listMin : List ℚ → ℚ
  | [] => 0
  | x :: xs => xs.foldl min x

/-- `EvolutionOrchestrator._check_stagnation` on the evolution log's
fitness scores: false with fewer than four generations, else whether
the last three scores span a range below 5. -/
def checkStagnation (log : List ℚ) : Bool :=
  if log.length < 4 then false
  else
    let recent := log.drop (log.length - 3)
    decide (listMax recent - listMin recent < 5)

/-- The loop of `EvolutionOrchestrator.run_evolution_cycle` with the
per-generation fitness outcome abstracted as a trace `fitnessOf`
(each `run_generation` call appends exactly one report carrying that
generation's fitness to the evolution log; metrics collection and
printing are pure observers and are elided).  Arguments: current
generation index, remaining generations, accumulated fitness log,
number of breakthrough passes fired so far. -/
def runCycleFrom (fitnessOf : Nat → ℚ) : Nat → Nat → List ℚ → Nat → List ℚ × Nat
  | _, 0, log, count => (log, count)
  | gen, rem + 1, log, count =>
    let log' := log ++ [fitnessOf gen]
    if 100 ≤ fitnessOf gen then (log', count)
    else if 3 < gen ∧ checkStagnation log' = true then
      runCycleFrom fitnessOf (gen + 1) rem log' (count + 1)
    else runCycleFrom fitnessOf (gen + 1) rem log' count

/-- `run_evolution_cycle` for `max_generations` generations: the final
fitness log and how many times the breakthrough pass fired. -/
def runCycleSim (fitnessOf : Nat → ℚ) (maxGenerations : Nat) : List ℚ × Nat :=
  runCycleFrom fitnessOf 0 maxGenerations [] 0

/-! ### Concrete scenario values used by the claims -/

/-- The fitness trace `[40, 42, 41, 43]` of the stagnation scenario. -/
def trace4 : Nat → ℚ := fun g => [(40 : ℚ), 42, 41, 43].getD g 0

/-- The stagnation trace extended by a fifth generation at fitness 43
(the last three scores still span a range below 5). -/
def trace5 : Nat → ℚ := fun g => [(40 : ℚ), 42, 41, 43, 43].getD g 0

/-- A mechanism whose `evaluate` always faults (for exercising the
`try`/`except` boundary of `apply_defense`). -/
def errMech : Mechanism :=
  ⟨{ defense_type := .INPUT_VALIDATION }, 0, fun _ _ _ => (.error "boom", 5)⟩

/-- A registry holding only the always-faulting mechanism. -/
def errFw : DefenseFramework :=
  ⟨fun dt => if dt = .INPUT_VALIDATION then some errMech else none⟩

/-- The input-validation mechanism as registered by a fresh framework. -/
def ivMech : Mechanism :=
  ⟨{ defense_type := .INPUT_VALIDATION, strength := 1 }, 0,
   pureEval inputValidationCheck⟩

/-- The type-checking mechanism as registered by a fresh framework. -/
def tcMech : Mechanism :=
  ⟨{ defense_type := .TYPE_CHECKING, strength := 1 }, 0,
   pureEval typeCheckingCheck⟩

/-- The counter bump that `DefenseConfig.trigger` performs on an
active defense whose evaluation completed with verdict `b`:
`times_triggered` increments and exactly one of `successful_blocks` /
`false_positives` does. -/
def triggerBump (m m' : Mechanism) (b : Bool) : Prop :=
  m'.config.times_triggered = m.config.times_triggered + 1 ∧
  (b = true → m'.config.successful_blocks = m.config.successful_blocks + 1 ∧
              m'.config.false_positives = m.config.false_positives) ∧
  (b = false → m'.config.false_positives = m.config.false_positives + 1 ∧
               m'.config.successful_blocks = m.config.successful_blocks)

/-- A defense configuration at the default strength 1. -/
def c8cfg : DefenseConfig := { defense_type := .INPUT_VALIDATION }

/-- A bounds-enforcement pattern at the difficulty cap that has failed
all of its three attempts (reached, e.g., by the catalog's "String
buffer overflow" pattern after repeated blocked generations). -/
def stuckBoundsPattern : AttackPattern :=
  { defense_type := .BOUNDS_ENFORCEMENT, payload_generator := bufferOverflowSmall,
    description := "String buffer overflow", difficulty := 10,
    success_count := 0, attempt_count := 3 }

/-- A sanitization-targeting pattern that has failed all of its three
attempts. -/
def failingSanPattern : AttackPattern :=
  { defense_type := .SANITIZATION, payload_generator := sqlInjection,
    description := "SQL injection", difficulty := 4,
    success_count := 0, attempt_count := 3 }

/-- The monotonicity scenario, first run: `execute_suite()` on a fresh
registry and the default pattern set. -/
def c5FirstRun := executeSuite freshFramework 0 freshPatterns

/-- `blocked1` of the monotonicity scenario. -/
def c5Blocked1 : Nat := c5FirstRun.1.2.1

/-- The registry after the first run, with every category strengthened
by +5 (`for defense_type in DefenseType`). -/
def c5Strengthened : DefenseFramework :=
  allDefenseTypes.foldl (fun fw dt => strengthenFw fw dt 5) c5FirstRun.2.2

/-- The monotonicity scenario, second run, on the mutated pattern
list and strengthened registry. -/
def c5SecondRun := executeSuite c5Strengthened 0 c5FirstRun.2.1

/-- `blocked2` of the monotonicity scenario. -/
def c5Blocked2 : Nat := c5SecondRun.1.2.1

/-- An orchestrator over a fresh seed whose active pattern set is
empty. -/
def emptyOrchestrator : OrchestratorState :=
  { fw := freshFramework, patterns := [] }

/-- The registry invariant established by `_initialize_defenses` and
preserved by every framework operation: every category except the two
never-registered ones holds a mechanism.  (It keeps strategy 2's
snapshot lookups, hence `run_generation`, from faulting.) -/
def coreRegistered (fw : DefenseFramework) : Prop :=
  ∀ dt : DefenseType, dt ≠ .LOGIC_HARDENING → dt ≠ .ANOMALY_DETECTION →
    (fw.defenses dt).isSome = true

/-! ### Registry lemmas -/

theorem setMech_same (fw : DefenseFramework) (dt : DefenseType) (m : Mechanism) :
    (fw.setMech dt m).defenses dt = some m := by
  simp [DefenseFramework.setMech]

theorem setMech_other (fw : DefenseFramework) (dt dt' : DefenseType) (m : Mechanism)
    (h : dt' ≠ dt) : (fw.setMech dt m).defenses dt' = fw.defenses dt' := by
  simp [DefenseFramework.setMech, h]

theorem strengthenFw_slot_other (fw : DefenseFramework) (dt dt' : DefenseType)
    (a : Int) (h : dt ≠ dt') :
    (strengthenFw fw dt' a).defenses dt = fw.defenses dt := by
  unfold strengthenFw
  cases fw.defenses dt' with
  | none => rfl
  | some m => exact setMech_other _ _ _ _ h

theorem activateFw_slot_other (fw : DefenseFramework) (dt dt' : DefenseType)
    (h : dt ≠ dt') : (activateFw fw dt').defenses dt = fw.defenses dt := by
  unfold activateFw
  cases fw.defenses dt' with
  | none => rfl
  | some m => exact setMech_other _ _ _ _ h

theorem strengthenFw_slot_none (fw : DefenseFramework) (dt dt' : DefenseType)
    (a : Int) (h : fw.defenses dt = none) :
    (strengthenFw fw dt' a).defenses dt = none := by
  by_cases hd : dt = dt'
  · subst hd; unfold strengthenFw; rw [h]; exact h
  · rw [strengthenFw_slot_other _ _ _ _ hd, h]

theorem activateFw_slot_none (fw : DefenseFramework) (dt dt' : DefenseType)
    (h : fw.defenses dt = none) : (activateFw fw dt').defenses dt = none := by
  by_cases hd : dt = dt'
  · subst hd; unfold activateFw; rw [h]; exact h
  · rw [activateFw_slot_other _ _ _ hd, h]

theorem breakStep_slot_none (fw : DefenseFramework) (dt dt' : DefenseType)
    (h : fw.defenses dt = none) : (breakStep fw dt').defenses dt = none := by
  unfold breakStep
  exact activateFw_slot_none _ _ _ (strengthenFw_slot_none _ _ _ _ h)

theorem breakFold_slot_none (ts : List DefenseType) (fw : DefenseFramework)
    (dt : DefenseType) (h : fw.defenses dt = none) :
    ((ts.foldl breakStep fw).defenses dt) = none := by
  induction ts generalizing fw with
  | nil => exact h
  | cons t ts ih => exact ih _ (breakStep_slot_none _ _ _ h)

theorem actFold_slot_none (ts : List DefenseType) (fw : DefenseFramework)
    (dt : DefenseType) (h : fw.defenses dt = none) :
    ((ts.foldl activateFw fw).defenses dt) = none := by
  induction ts generalizing fw with
  | nil => exact h
  | cons t ts ih => exact ih _ (activateFw_slot_none _ _ _ h)

/-- Effect of one breakthrough step on its own category's mechanism. -/
theorem breakStep_slot_same (fw : DefenseFramework) (dt : DefenseType)
    (m : Mechanism) (h : fw.defenses dt = some m) :
    (breakStep fw dt).defenses dt =
      some { m with config :=
        { m.config with active := true,
                        strength := min 10 (m.config.strength + 3) } } := by
  unfold breakStep strengthenFw
  rw [h]
  unfold activateFw
  rw [setMech_same]
  rw [setMech_same]
  rfl

theorem breakStep_slot_other (fw : DefenseFramework) (dt dt' : DefenseType)
    (h : dt ≠ dt') : (breakStep fw dt').defenses dt = fw.defenses dt := by
  unfold breakStep
  rw [activateFw_slot_other _ _ _ h, strengthenFw_slot_other _ _ _ _ h]

theorem breakFold_slot_other (ts : List DefenseType) (fw : DefenseFramework)
    (dt : DefenseType) (h : dt ∉ ts) :
    ((ts.foldl breakStep fw).defenses dt) = fw.defenses dt := by
  induction ts generalizing fw with
  | nil => rfl
  | cons t ts ih =>
    rw [List.foldl_cons, ih _ (fun hm => h (List.mem_cons_of_mem _ hm)),
        breakStep_slot_other _ _ _
          (fun he => h (by rw [he]; exact List.mem_cons_self _ _))]

/-- Effect of the whole breakthrough pass on one registered category. -/
theorem breakFold_slot_mem (ts : List DefenseType) (fw : DefenseFramework)
    (dt : DefenseType) (m : Mechanism) (hmem : dt ∈ ts) (hnd : ts.Nodup)
    (h : fw.defenses dt = some m) :
    ((ts.foldl breakStep fw).defenses dt) =
      some { m with config :=
        { m.config with active := true,
                        strength := min 10 (m.config.strength + 3) } } := by
  induction ts generalizing fw with
  | nil => cases hmem
  | cons t ts ih =>
    rcases List.mem_cons.mp hmem with he | hm
    · subst he
      rw [List.foldl_cons,
          breakFold_slot_other _ _ _ ((List.nodup_cons.mp hnd).1),
          breakStep_slot_same _ _ _ h]
    · have hne : dt ≠ t := fun he => ((List.nodup_cons.mp hnd).1 (by rw [← he]; exact hm))
      rw [List.foldl_cons]
      exact ih _ hm (List.nodup_cons.mp hnd).2
        (by rw [breakStep_slot_other _ _ _ hne, h])

theorem allDefenseTypes_mem (dt : DefenseType) : dt ∈ allDefenseTypes := by
  cases dt <;> simp [allDefenseTypes]

theorem allDefenseTypes_nodup : allDefenseTypes.Nodup := by
  simp [allDefenseTypes]

theorem strengthen_strength (c : DefenseConfig) (a : Int) :
    (c.strengthen a).strength = min 10 (c.strength + a) := rfl

/-- Effect of one `adapt_patterns` iteration on a mutation-eligible
pattern (failing often enough, targeting a category with a mutation
strategy): difficulty is incremented without a clamp and the
`adaptations` counter is untouched. -/
theorem adaptOne_mutates (p : AttackPattern)
    (hrate : p.success_rate < (0.2 : ℚ)) (hatt : 2 < p.attempt_count)
    (hcat : p.defense_type = .BOUNDS_ENFORCEMENT ∨
            p.defense_type = .SANITIZATION ∨
            p.defense_type = .TYPE_CHECKING) :
    (adaptOne p).difficulty = p.difficulty + 1 ∧
    (adaptOne p).adaptations = p.adaptations := by
  obtain ⟨pdt, pgen, pdesc, pdiff, psc, pat, pad⟩ := p
  have hnothigh :
      ¬ (AttackPattern.success_rate ⟨pdt, pgen, pdesc, pdiff, psc, pat, pad⟩
          > (0.6 : ℚ)) :=
    fun hgt => absurd (lt_trans hgt hrate) (by norm_num)
  rcases hcat with h | h | h <;> subst h <;>
    · unfold adaptOne
      rw [if_neg hnothigh, if_pos ⟨hrate, hatt⟩]
      exact ⟨rfl, rfl⟩

/-! ### Executor and analysis lemmas -/

theorem executeSuite_blocked_counts (fw : DefenseFramework) (g : Nat)
    (ps : List AttackPattern) :
    (executeSuite fw g ps).1.2.1 =
      (executeSuite fw g ps).1.1.countP (fun e => e.blocked) ∧
    (executeSuite fw g ps).1.2.2 = (executeSuite fw g ps).1.1.length := by
  induction ps generalizing fw with
  | nil => exact ⟨rfl, rfl⟩
  | cons p ps ih =>
    obtain ⟨ih1, ih2⟩ := ih (executeAttack fw g p).2.2
    constructor
    · show (if (executeAttack fw g p).1.blocked then
             (executeSuite (executeAttack fw g p).2.2 g ps).1.2.1 + 1
           else (executeSuite (executeAttack fw g p).2.2 g ps).1.2.1) =
          List.countP (fun e => e.blocked)
            ((executeAttack fw g p).1 ::
              (executeSuite (executeAttack fw g p).2.2 g ps).1.1)
      rw [List.countP_cons, ih1]
      cases hb : (executeAttack fw g p).1.blocked <;> simp [hb]
    · show (executeSuite (executeAttack fw g p).2.2 g ps).1.2.2 + 1 =
          ((executeAttack fw g p).1 ::
            (executeSuite (executeAttack fw g p).2.2 g ps).1.1).length
      rw [List.length_cons, ih2]

theorem failVecsFrom_ne_nil (es : List Exploit) :
    ∀ acc : List DefenseType, acc ≠ [] → failVecsFrom acc es ≠ [] := by
  induction es with
  | nil => intro acc h; exact h
  | cons e es ih =>
    intro acc h
    unfold failVecsFrom
    by_cases hb : e.blocked = true
    · rw [if_pos hb]; exact ih acc h
    · rw [if_neg hb]
      by_cases hm : e.vector ∈ acc
      · rw [if_pos hm]; exact ih acc h
      · rw [if_neg hm]; exact ih _ (by simp)

theorem failVecsFrom_ne_nil_of_unblocked (es : List Exploit) :
    ∀ acc : List DefenseType, (∃ e ∈ es, e.blocked = false) →
      failVecsFrom acc es ≠ [] := by
  induction es with
  | nil =>
    intro acc h
    obtain ⟨e, he, _⟩ := h
    cases he
  | cons e0 es ih =>
    intro acc h
    obtain ⟨e, he, hb⟩ := h
    unfold failVecsFrom
    by_cases hb0 : e0.blocked = true
    · rw [if_pos hb0]
      rcases List.mem_cons.mp he with he0 | hm
      · subst he0; rw [hb] at hb0; cases hb0
      · exact ih acc ⟨e, hm, hb⟩
    · rw [if_neg hb0]
      by_cases hm0 : e0.vector ∈ acc
      · rw [if_pos hm0]
        exact failVecsFrom_ne_nil es acc (List.ne_nil_of_mem hm0)
      · rw [if_neg hm0]
        exact failVecsFrom_ne_nil es _ (by simp)

theorem failVecsFrom_all_blocked (es : List Exploit) :
    ∀ acc, (∀ e ∈ es, e.blocked = true) → failVecsFrom acc es = acc := by
  induction es with
  | nil => intro acc _; rfl
  | cons e es ih =>
    intro acc hall
    unfold failVecsFrom
    rw [if_pos (hall e (List.mem_cons_self _ _))]
    exact ih acc (fun x hx => hall x (List.mem_cons_of_mem _ hx))

theorem analyzeResults_eq_nil_iff (es : List Exploit) :
    analyzeResults es = [] ↔ ∀ e ∈ es, e.blocked = true := by
  constructor
  · intro h e he
    by_contra hb
    have hb' : e.blocked = false := by
      cases hx : e.blocked
      · rfl
      · exact absurd hx hb
    have hne := failVecsFrom_ne_nil_of_unblocked es [] ⟨e, he, hb'⟩
    unfold analyzeResults at h
    rw [List.map_eq_nil_iff] at h
    exact hne h
  · intro hall
    unfold analyzeResults failureVectors
    rw [failVecsFrom_all_blocked es [] hall]
    rfl

theorem countP_lt_length_iff (es : List Exploit) :
    es.countP (fun e => e.blocked) < es.length ↔
      ¬ (∀ e ∈ es, e.blocked = true) := by
  constructor
  · intro hlt hall
    rw [List.countP_eq_length.mpr hall] at hlt
    exact lt_irrefl _ hlt
  · intro hne
    refine Nat.lt_of_le_of_ne (List.countP_le_length _) ?_
    intro heq
    exact hne (fun e he => List.countP_eq_length.mp heq e he)

theorem fitness_bounds (b t : Nat) (h : b ≤ t) :
    0 ≤ (if 0 < t then ((b : ℚ) / (t : ℚ)) * 100 else 0) ∧
    (if 0 < t then ((b : ℚ) / (t : ℚ)) * 100 else 0) ≤ 100 := by
  by_cases ht : 0 < t
  · rw [if_pos ht]
    have htq : (0 : ℚ) < (t : ℚ) := by exact_mod_cast ht
    have hbq : (b : ℚ) ≤ (t : ℚ) := by exact_mod_cast h
    have hdiv : (b : ℚ) / (t : ℚ) ≤ 1 := (div_le_one htq).mpr hbq
    have hdiv0 : 0 ≤ (b : ℚ) / (t : ℚ) := by positivity
    constructor
    · positivity
    · calc ((b : ℚ) / (t : ℚ)) * 100 ≤ 1 * 100 :=
            mul_le_mul_of_nonneg_right hdiv (by norm_num)
        _ = 100 := by norm_num
  · rw [if_neg ht]; norm_num

/-! ### Preservation of the registry shape through a generation -/

theorem setMech_presence (fw : DefenseFramework) (dt : DefenseType)
    (m : Mechanism) (dt' : DefenseType) (h : (fw.defenses dt).isSome = true) :
    ((fw.setMech dt m).defenses dt').isSome = (fw.defenses dt').isSome := by
  by_cases hd : dt' = dt
  · subst hd; rw [setMech_same, h]; rfl
  · rw [setMech_other _ _ _ _ hd]

theorem strengthenFw_presence (fw : DefenseFramework) (dt : DefenseType)
    (a : Int) (dt' : DefenseType) :
    ((strengthenFw fw dt a).defenses dt').isSome = (fw.defenses dt').isSome := by
  unfold strengthenFw
  cases h : fw.defenses dt with
  | none => rfl
  | some m => exact setMech_presence _ _ _ _ (by rw [h]; rfl)

theorem activateFw_presence (fw : DefenseFramework) (dt : DefenseType)
    (dt' : DefenseType) :
    ((activateFw fw dt).defenses dt').isSome = (fw.defenses dt').isSome := by
  unfold activateFw
  cases h : fw.defenses dt with
  | none => rfl
  | some m => exact setMech_presence _ _ _ _ (by rw [h]; rfl)

theorem applyDefense_presence (fw : DefenseFramework) (dt : DefenseType)
    (v : Payload) (dt' : DefenseType) :
    (((applyDefense fw dt v).2).defenses dt').isSome =
      (fw.defenses dt').isSome := by
  unfold applyDefense
  cases h : fw.defenses dt with
  | none => rfl
  | some m =>
    cases hact : m.config.active with
    | false => simp [hact]
    | true =>
      simp only [hact, Bool.not_true]
      cases hm : m.executeM v with
      | mk res m' =>
        cases res with
        | ok br =>
          simp only [Bool.false_eq_true, if_false]
          exact setMech_presence _ _ _ _ (by rw [h]; rfl)
        | error e =>
          simp only [Bool.false_eq_true, if_false]
          exact setMech_presence _ _ _ _ (by rw [h]; rfl)

theorem executeSuite_presence (ps : List AttackPattern) (fw : DefenseFramework)
    (g : Nat) (dt' : DefenseType) :
    (((executeSuite fw g ps).2.2).defenses dt').isSome =
      (fw.defenses dt').isSome := by
  induction ps generalizing fw with
  | nil => rfl
  | cons p ps ih =>
    show (((executeSuite (executeAttack fw g p).2.2 g ps).2.2).defenses dt').isSome = _
    rw [ih]
    exact applyDefense_presence _ _ _ _

theorem coreRegistered_of_presence (fw fw' : DefenseFramework)
    (h : ∀ dt, (fw'.defenses dt).isSome = (fw.defenses dt).isSome)
    (hreg : coreRegistered fw) : coreRegistered fw' :=
  fun dt h1 h2 => by rw [h dt]; exact hreg dt h1 h2

theorem defenseRelationships_targets (dt : DefenseType) (ds : List DefenseType)
    (h : defenseRelationships dt = some ds) :
    ∀ c ∈ ds, c ≠ DefenseType.LOGIC_HARDENING ∧
              c ≠ DefenseType.ANOMALY_DETECTION := by
  cases dt <;> simp [defenseRelationships] at h <;> subst h <;> decide

theorem exists_ok_ite {ε α : Type} (c : Prop) [Decidable c] (a b : α) :
    ∃ r, (if c then (pure a : Except ε α) else pure b) = .ok r := by
  by_cases h : c
  · exact ⟨a, by rw [if_pos h]; rfl⟩
  · exact ⟨b, by rw [if_neg h]; rfl⟩

theorem activateComplementary_ok (acc : DefenseFramework × List String)
    (comp : DefenseType) (hreg : coreRegistered acc.1)
    (h1 : comp ≠ .LOGIC_HARDENING) (h2 : comp ≠ .ANOMALY_DETECTION) :
    ∃ res, activateComplementary acc comp = .ok res ∧ coreRegistered res.1 := by
  have hs := hreg comp h1 h2
  obtain ⟨m, hm⟩ : ∃ m, acc.1.defenses comp = some m := by
    cases hmm : acc.1.defenses comp with
    | none => rw [hmm] at hs; cases hs
    | some m => exact ⟨m, rfl⟩
  unfold activateComplementary
  rw [show getSnapshot acc.1 comp =
        some ⟨m.config.active, m.config.strength, m.config.times_triggered,
              m.config.effectiveness⟩ from by unfold getSnapshot; rw [hm]; rfl]
  cases ha : m.config.active with
  | true =>
    refine ⟨acc, ?_, hreg⟩
    simp [ha]
  | false =>
    refine ⟨(activateFw acc.1 comp,
             acc.2 ++ ["🧬 Activated " ++ comp.value ++ " (complementary defense)"]),
            ?_, ?_⟩
    · simp [ha]
    · exact coreRegistered_of_presence _ _
        (fun dt => activateFw_presence _ _ _) hreg

theorem compsFold_ok (comps : List DefenseType) :
    ∀ acc : DefenseFramework × List String, coreRegistered acc.1 →
    (∀ c ∈ comps, c ≠ DefenseType.LOGIC_HARDENING ∧
                  c ≠ DefenseType.ANOMALY_DETECTION) →
    ∃ res, comps.foldlM activateComplementary acc = .ok res ∧
           coreRegistered res.1 := by
  induction comps with
  | nil => intro acc hreg _; exact ⟨acc, rfl, hreg⟩
  | cons c cs ih =>
    intro acc hreg hall
    obtain ⟨r1, hr1, hreg1⟩ :=
      activateComplementary_ok acc c hreg
        (hall c (List.mem_cons_self _ _)).1 (hall c (List.mem_cons_self _ _)).2
    obtain ⟨res, hres, hregres⟩ :=
      ih r1 hreg1 (fun x hx => hall x (List.mem_cons_of_mem _ hx))
    refine ⟨res, ?_, hregres⟩
    rw [List.foldlM_cons, hr1]
    exact hres

theorem complementaryFor_ok (acc : DefenseFramework × List String)
    (fd : DefenseType) (hreg : coreRegistered acc.1) :
    ∃ res, complementaryFor acc fd = .ok res ∧ coreRegistered res.1 := by
  unfold complementaryFor
  cases hrel : defenseRelationships fd with
  | none => exact ⟨acc, rfl, hreg⟩
  | some comps =>
    exact compsFold_ok comps acc hreg (defenseRelationships_targets fd comps hrel)

theorem failedFold_ok (failed : List DefenseType) :
    ∀ acc : DefenseFramework × List String, coreRegistered acc.1 →
    ∃ res, failed.foldlM complementaryFor acc = .ok res ∧
           coreRegistered res.1 := by
  induction failed with
  | nil => intro acc hreg; exact ⟨acc, rfl, hreg⟩
  | cons fd fds ih =>
    intro acc hreg
    obtain ⟨r1, hr1, hreg1⟩ := complementaryFor_ok acc fd hreg
    obtain ⟨res, hres, hregres⟩ := ih r1 hreg1
    refine ⟨res, ?_, hregres⟩
    rw [List.foldlM_cons, hr1]
    exact hres

theorem strengthenFailedFold_core (failed : List DefenseType) :
    ∀ acc : DefenseFramework × List String, coreRegistered acc.1 →
    coreRegistered ((failed.foldl strengthenFailed acc).1) := by
  induction failed with
  | nil => intro acc h; exact h
  | cons fd fds ih =>
    intro acc h
    rw [List.foldl_cons]
    exact ih _ (coreRegistered_of_presence _ _
      (fun dt => strengthenFw_presence _ _ _ _) h)

theorem applyDefensiveAdaptations_ok (fw : DefenseFramework)
    (issues : List TestIssue) (exploits : List Exploit)
    (hreg : coreRegistered fw) :
    ∃ res, applyDefensiveAdaptations fw issues exploits = .ok res := by
  obtain ⟨acc2, hacc2, _⟩ := failedFold_ok (failureVectors exploits)
    ((failureVectors exploits).foldl strengthenFailed (fw, []))
    (strengthenFailedFold_core _ _ hreg)
  simp only [applyDefensiveAdaptations]
  rw [hacc2]
  exact exists_ok_ite _ _ _

theorem runGeneration_ok (s : OrchestratorState) (g : Nat)
    (hreg : coreRegistered s.fw) :
    ∃ res, runGeneration s g =
        .ok (buildGenerationOutcome s g (executeSuite s.fw g s.patterns) res) ∧
      applyDefensiveAdaptations (executeSuite s.fw g s.patterns).2.2
        (analyzeResults (executeSuite s.fw g s.patterns).1.1)
        (executeSuite s.fw g s.patterns).1.1 = .ok res := by
  have hreg2 : coreRegistered (executeSuite s.fw g s.patterns).2.2 :=
    coreRegistered_of_presence _ _
      (fun dt => executeSuite_presence _ _ _ _) hreg
  obtain ⟨res, hres⟩ := applyDefensiveAdaptations_ok _
    (analyzeResults (executeSuite s.fw g s.patterns).1.1)
    (executeSuite s.fw g s.patterns).1.1 hreg2
  refine ⟨res, ?_, hres⟩
  simp only [runGeneration]
  rw [hres]
  rfl

/-! ### Claim theorems -/

/-- Claim C6: the Defense Registry never raises past its boundary —
`apply_defense` on an unregistered category returns
`(false, "Defense not found")` and leaves the registry untouched, and
a fault raised inside a mechanism's evaluation is caught and reported
as `(false, "Defense execution error: <message>")` (keeping any
instance-counter mutation that preceded the fault) rather than
propagated. -/
theorem c6_error_boundary :
    (∀ (fw : DefenseFramework) (dt : DefenseType) (v : Payload),
       fw.defenses dt = none →
       applyDefense fw dt v = ((false, "Defense not found"), fw)) ∧
    (∀ (fw : DefenseFramework) (dt : DefenseType) (v : Payload) (m : Mechanism)
       (msg : String) (rc' : Nat),
       fw.defenses dt = some m → m.config.active = true →
       m.evalFn m.config m.reqCount v = (.error msg, rc') →
       applyDefense fw dt v =
         ((false, "Defense execution error: " ++ msg),
          fw.setMech dt { m with reqCount := rc' })) := by
  constructor
  · intro fw dt v h
    simp [applyDefense, h]
  · intro fw dt v m msg rc' h hact heval
    simp [applyDefense, h, hact, Mechanism.executeM, heval]

/-- Witness for C6 at concrete inputs: a fresh framework has no
`LOGIC_HARDENING` entry, and a registry holding an always-faulting
mechanism reports the execution error without raising. -/
theorem c6_error_boundary_witness :
    applyDefense freshFramework .LOGIC_HARDENING .pnone =
      ((false, "Defense not found"), freshFramework) ∧
    applyDefense errFw .INPUT_VALIDATION .pnone =
      ((false, "Defense execution error: boom"),
       errFw.setMech .INPUT_VALIDATION { errMech with reqCount := 5 }) :=
  ⟨c6_error_boundary.1 freshFramework _ _ rfl,
   c6_error_boundary.2 errFw _ _ errMech "boom" 5 rfl rfl rfl⟩

/-- Claim C7: `apply_defense` on a registered but inactive category
returns `(false, "Defense inactive")` and returns the registry
unchanged (evaluation, and hence every counter, untouched); on an
active category whose evaluation completes, the category's
`times_triggered` increments together with exactly one of
`successful_blocks` / `false_positives`. -/
theorem c7_trigger_frame :
    (∀ (fw : DefenseFramework) (dt : DefenseType) (v : Payload) (m : Mechanism),
       fw.defenses dt = some m → m.config.active = false →
       applyDefense fw dt v = ((false, "Defense inactive"), fw)) ∧
    (∀ (fw : DefenseFramework) (dt : DefenseType) (v : Payload) (m : Mechanism)
       (b : Bool) (r : String) (rc' : Nat),
       fw.defenses dt = some m → m.config.active = true →
       m.evalFn m.config m.reqCount v = (.ok (b, r), rc') →
       ∃ m', (applyDefense fw dt v).2.defenses dt = some m' ∧
             triggerBump m m' b) := by
  constructor
  · intro fw dt v m h hact
    simp [applyDefense, h, hact]
  · intro fw dt v m b r rc' h hact heval
    refine ⟨{ m with reqCount := rc', config := m.config.trigger b }, ?_, ?_, ?_, ?_⟩
    · simp [applyDefense, h, hact, Mechanism.executeM, heval, setMech_same]
    · cases b <;> simp [DefenseConfig.trigger]
    · intro hb; subst hb; simp [DefenseConfig.trigger]
    · intro hb; subst hb; simp [DefenseConfig.trigger]

/-- Witness for C7 at concrete inputs: the fresh framework's
`RATE_LIMITING` entry is inactive, and evaluating `None` against the
fresh `INPUT_VALIDATION` entry (which blocks it) bumps the counters. -/
theorem c7_trigger_frame_witness :
    applyDefense freshFramework .RATE_LIMITING (.pstr "x") =
      ((false, "Defense inactive"), freshFramework) ∧
    (∃ m', (applyDefense freshFramework .INPUT_VALIDATION .pnone).2.defenses
             .INPUT_VALIDATION = some m' ∧ triggerBump ivMech m' true) :=
  ⟨c7_trigger_frame.1 freshFramework .RATE_LIMITING (.pstr "x")
     ⟨{ defense_type := .RATE_LIMITING, active := false }, 0, rateLimitingEval⟩
     rfl rfl,
   c7_trigger_frame.2 freshFramework .INPUT_VALIDATION .pnone ivMech true
     "Rejected: null value" 0 rfl rfl rfl⟩

/-- Counterexample for C8 as stated: a configuration with strength 1
(inside `[1, 10]`) leaves `[1, 10]` after the single call
`strengthen(-1)` — the Python signature admits any `int` amount and
only the upper end is clamped. -/
theorem c8_counterexample :
    1 ≤ c8cfg.strength ∧ c8cfg.strength ≤ 10 ∧
    (c8cfg.strengthen (-1)).strength = 0 ∧
    ¬ (1 ≤ (c8cfg.strengthen (-1)).strength) := by decide

/-- Claim C8 (amended): for every `DefenseConfig` with strength in
`[1, 10]`, any sequence of `strengthen` calls with nonnegative amounts
keeps the strength in `[1, 10]`; for arbitrary integer amounts the
strength still never exceeds 10. -/
theorem c8_amended :
    (∀ (c : DefenseConfig) (amounts : List Int), (∀ a ∈ amounts, 0 ≤ a) →
       1 ≤ c.strength → c.strength ≤ 10 →
       1 ≤ (amounts.foldl DefenseConfig.strengthen c).strength ∧
       (amounts.foldl DefenseConfig.strengthen c).strength ≤ 10) ∧
    (∀ (c : DefenseConfig) (amounts : List Int), c.strength ≤ 10 →
       (amounts.foldl DefenseConfig.strengthen c).strength ≤ 10) := by
  constructor
  · intro c amounts
    induction amounts generalizing c with
    | nil => intro _ h1 h2; exact ⟨h1, h2⟩
    | cons a as ih =>
      intro hall h1 _
      rw [List.foldl_cons]
      have ha : (0 : Int) ≤ a := hall a (List.mem_cons_self _ _)
      refine ih _ (fun x hx => hall x (List.mem_cons_of_mem _ hx)) ?_ ?_
      · rw [strengthen_strength]
        exact le_min (by norm_num) (by omega)
      · rw [strengthen_strength]
        exact min_le_left _ _
  · intro c amounts
    induction amounts generalizing c with
    | nil => intro h; exact h
    | cons a as ih =>
      intro _
      rw [List.foldl_cons]
      exact ih _ (by rw [strengthen_strength]; exact min_le_left _ _)

/-- Witness for C8 (amended) at concrete inputs. -/
theorem c8_amended_witness :
    (1 ≤ (([5, 2] : List Int).foldl DefenseConfig.strengthen c8cfg).strength ∧
     (([5, 2] : List Int).foldl DefenseConfig.strengthen c8cfg).strength ≤ 10) ∧
    (([20, -30] : List Int).foldl DefenseConfig.strengthen c8cfg).strength ≤ 10 :=
  ⟨c8_amended.1 c8cfg [5, 2] (by decide) (by decide) (by decide),
   c8_amended.2 c8cfg [20, -30] (by decide)⟩

/-- Claim C9: `LOGIC_HARDENING` and `ANOMALY_DETECTION` are enum
members that `_initialize_defenses` never registers; `apply_defense`
on an unregistered category answers `(false, "Defense not found")`
for every payload, `activate` / `strengthen` on it leave the registry
unchanged, and consequently the breakthrough pass and the emergency
activation (which iterate over every `DefenseType` member) leave those
two categories unregistered. -/
theorem c9_unregistered :
    (∀ s : Int, (initFramework s).defenses .LOGIC_HARDENING = none ∧
                (initFramework s).defenses .ANOMALY_DETECTION = none) ∧
    (∀ (fw : DefenseFramework) (dt : DefenseType) (v : Payload),
       fw.defenses dt = none →
       applyDefense fw dt v = ((false, "Defense not found"), fw) ∧
       activateFw fw dt = fw ∧ ∀ a : Int, strengthenFw fw dt a = fw) ∧
    (∀ (fw : DefenseFramework) (dt : DefenseType),
       fw.defenses dt = none →
       (applyBreakthroughMutations fw).defenses dt = none ∧
       (allDefenseTypes.foldl activateFw fw).defenses dt = none) := by
  refine ⟨fun s => ⟨rfl, rfl⟩, ?_, ?_⟩
  · intro fw dt v h
    refine ⟨by simp [applyDefense, h], ?_, ?_⟩
    · unfold activateFw; rw [h]
    · intro a; unfold strengthenFw; rw [h]
  · intro fw dt h
    exact ⟨breakFold_slot_none _ _ _ h, actFold_slot_none _ _ _ h⟩

/-- Witness for C9 at concrete inputs: the two unregistered categories
of a fresh framework. -/
theorem c9_unregistered_witness :
    ((initFramework 1).defenses .LOGIC_HARDENING = none ∧
     (initFramework 1).defenses .ANOMALY_DETECTION = none) ∧
    applyDefense freshFramework .ANOMALY_DETECTION (.pstr "x") =
      ((false, "Defense not found"), freshFramework) ∧
    activateFw freshFramework .LOGIC_HARDENING = freshFramework ∧
    strengthenFw freshFramework .LOGIC_HARDENING 3 = freshFramework ∧
    (applyBreakthroughMutations freshFramework).defenses .LOGIC_HARDENING = none ∧
    (allDefenseTypes.foldl activateFw freshFramework).defenses
      .ANOMALY_DETECTION = none :=
  ⟨c9_unregistered.1 1,
   (c9_unregistered.2.1 freshFramework .ANOMALY_DETECTION (.pstr "x") rfl).1,
   (c9_unregistered.2.1 freshFramework .LOGIC_HARDENING (.pstr "x") rfl).2.1,
   (c9_unregistered.2.1 freshFramework .LOGIC_HARDENING (.pstr "x") rfl).2.2 3,
   (c9_unregistered.2.2 freshFramework .LOGIC_HARDENING rfl).1,
   (c9_unregistered.2.2 freshFramework .ANOMALY_DETECTION rfl).2⟩

/-- Counterexample for C1 as stated: running the evolution cycle for
four generations with the observed fitness trace `[40, 42, 41, 43]`
fires the breakthrough pass zero times, not once — the stagnation
branch additionally requires the generation index to exceed 3, and the
last of these four generations has index exactly 3. -/
theorem c1_counterexample :
    (runCycleSim trace4 4).2 = 0 ∧ (runCycleSim trace4 4).2 ≠ 1 := by
  have h : (runCycleSim trace4 4).2 = 0 := by
    norm_num [runCycleSim, runCycleFrom, trace4, List.getD]
  exact ⟨h, by rw [h]; exact Nat.zero_ne_one⟩

/-- Claim C1 (amended): four generations at fitness `[40, 42, 41, 43]`
fire the breakthrough pass zero times (the trigger needs a generation
index beyond 3); with a fifth generation whose fitness keeps the
last-three range below 5 (trace `[40, 42, 41, 43, 43]`) it fires
exactly once, and the breakthrough pass sets every registered
category's strength to `min(10, strength + 3)` and activates it
(unregistered categories are skipped, per C9). -/
theorem c1_amended :
    (runCycleSim trace4 4).2 = 0 ∧
    (runCycleSim trace5 5).2 = 1 ∧
    (∀ (fw : DefenseFramework) (dt : DefenseType) (m : Mechanism),
       fw.defenses dt = some m →
       (applyBreakthroughMutations fw).defenses dt =
         some { m with config :=
           { m.config with active := true,
                           strength := min 10 (m.config.strength + 3) } }) := by
  refine ⟨?_, ?_, ?_⟩
  · norm_num [runCycleSim, runCycleFrom, trace4, List.getD]
  · norm_num [runCycleSim, runCycleFrom, trace5, List.getD, checkStagnation,
      listMax, listMin, max_def, min_def]
  · intro fw dt m h
    exact breakFold_slot_mem _ _ _ _ (allDefenseTypes_mem dt)
      allDefenseTypes_nodup h

/-- Witness for C1 (amended) at a concrete registered category. -/
theorem c1_amended_witness :
    (runCycleSim trace4 4).2 = 0 ∧
    (runCycleSim trace5 5).2 = 1 ∧
    (applyBreakthroughMutations freshFramework).defenses .TYPE_CHECKING =
      some { tcMech with config :=
        { tcMech.config with active := true,
                             strength := min 10 (tcMech.config.strength + 3) } } :=
  ⟨c1_amended.1, c1_amended.2.1,
   c1_amended.2.2 freshFramework .TYPE_CHECKING tcMech rfl⟩

/-- Claim C2, evaluated at the failing input: a bounds-enforcement
pattern at difficulty 10 (inside `[1, 10]`) with success rate 0 over 3
attempts leaves `[1, 10]` after one `adapt_patterns` pass — the
`_mutate_payload` path increments `difficulty` without the
`min(10, ...)` clamp that the high-success path applies. -/
theorem c2_difficulty_escape :
    1 ≤ stuckBoundsPattern.difficulty ∧ stuckBoundsPattern.difficulty ≤ 10 ∧
    ((adaptPatterns [stuckBoundsPattern]).headD stuckBoundsPattern).difficulty = 11 ∧
    ¬ (((adaptPatterns [stuckBoundsPattern]).headD
         stuckBoundsPattern).difficulty ≤ 10) := by
  norm_num [adaptPatterns, adaptOne, stuckBoundsPattern,
    AttackPattern.success_rate, mutatePayload]

/-- Counterexample for C3 as stated: the mutation-eligible
sanitization pattern has its `adaptations` counter left unchanged (it
stays 0, not 1) by an `adapt_patterns` pass — only the
high-success-rate branch increments `adaptations`. -/
theorem c3_counterexample :
    failingSanPattern.success_rate < (0.2 : ℚ) ∧
    2 < failingSanPattern.attempt_count ∧
    failingSanPattern.defense_type = .SANITIZATION ∧
    ¬ (((adaptPatterns [failingSanPattern]).headD failingSanPattern).adaptations
        = failingSanPattern.adaptations + 1) := by
  norm_num [adaptPatterns, adaptOne, failingSanPattern,
    AttackPattern.success_rate, mutatePayload]

/-- Claim C3 (amended): for every active pattern with
`success_rate < 0.2` and `attempt_count > 2` targeting
bounds-enforcement, sanitization or type-checking, one
`adapt_patterns` pass increases the pattern's difficulty by exactly 1
(unclamped) and leaves its `adaptations` counter unchanged. -/
theorem c3_amended :
    ∀ (l : List AttackPattern) (i : Nat) (hi : i < l.length),
      (l.get ⟨i, hi⟩).success_rate < (0.2 : ℚ) →
      2 < (l.get ⟨i, hi⟩).attempt_count →
      ((l.get ⟨i, hi⟩).defense_type = .BOUNDS_ENFORCEMENT ∨
       (l.get ⟨i, hi⟩).defense_type = .SANITIZATION ∨
       (l.get ⟨i, hi⟩).defense_type = .TYPE_CHECKING) →
      ∃ hj : i < (adaptPatterns l).length,
        ((adaptPatterns l).get ⟨i, hj⟩).difficulty
            = (l.get ⟨i, hi⟩).difficulty + 1 ∧
        ((adaptPatterns l).get ⟨i, hj⟩).adaptations
            = (l.get ⟨i, hi⟩).adaptations := by
  intro l i hi hrate hatt hcat
  have hj : i < (adaptPatterns l).length := by
    simpa [adaptPatterns] using hi
  have hget : (adaptPatterns l).get ⟨i, hj⟩ = adaptOne (l.get ⟨i, hi⟩) := by
    simp [adaptPatterns, List.get_eq_getElem, List.getElem_map]
  refine ⟨hj, ?_, ?_⟩
  · rw [hget]; exact (adaptOne_mutates _ hrate hatt hcat).1
  · rw [hget]; exact (adaptOne_mutates _ hrate hatt hcat).2

/-- Witness for C3 (amended) at the concrete failing sanitization
pattern. -/
theorem c3_amended_witness :
    ∃ hj : 0 < (adaptPatterns [failingSanPattern]).length,
      ((adaptPatterns [failingSanPattern]).get ⟨0, hj⟩).difficulty
          = failingSanPattern.difficulty + 1 ∧
      ((adaptPatterns [failingSanPattern]).get ⟨0, hj⟩).adaptations
          = failingSanPattern.adaptations :=
  c3_amended [failingSanPattern] 0 (by norm_num)
    (by norm_num [failingSanPattern, AttackPattern.success_rate])
    (by norm_num [failingSanPattern]) (Or.inr (Or.inl rfl))

/-- Claim C5: on a fresh registry with the default pattern set,
running `execute_suite()`, strengthening every category by +5, and
running `execute_suite()` again yields `blocked2 >= blocked1` (here
both runs block all six attacks). -/
theorem c5_monotonicity :
    c5Blocked1 = 6 ∧ c5Blocked2 = 6 ∧ c5Blocked1 ≤ c5Blocked2 := by decide

/-- Claim C4: a generation run on a freshly initialized seed (any
initial strength, any configured population size `n`) produces a
report with `0 <= fitness_score <= 100` and
`attacks_blocked <= attacks_total`, whose issue list is non-empty
exactly when some attack went unblocked
(`attacks_blocked < attacks_total`). -/
theorem c4_generation_report (initialStrength : Int) (n g : Nat) :
    ∃ r s', runGeneration { fw := initFramework initialStrength,
                            patterns := initPatterns n } g = .ok (r, s') ∧
      0 ≤ r.fitness_score ∧ r.fitness_score ≤ 100 ∧
      r.attacks_blocked ≤ r.attacks_total ∧
      (r.issues ≠ [] ↔ r.attacks_blocked < r.attacks_total) := by
  set st : OrchestratorState :=
    { fw := initFramework initialStrength, patterns := initPatterns n } with hst
  have hreg : coreRegistered st.fw := by
    intro dt h1 h2
    cases dt <;> first | rfl | exact absurd rfl h1 | exact absurd rfl h2
  obtain ⟨res, hrun, -⟩ := runGeneration_ok st g hreg
  obtain ⟨h1, h2⟩ := executeSuite_blocked_counts st.fw g st.patterns
  have hble : (executeSuite st.fw g st.patterns).1.2.1 ≤
      (executeSuite st.fw g st.patterns).1.2.2 := by
    rw [h1, h2]; exact List.countP_le_length _
  refine ⟨_, _, hrun, ?_, ?_, ?_, ?_⟩
  · show 0 ≤ (if 0 < (executeSuite st.fw g st.patterns).1.2.2 then
        (((executeSuite st.fw g st.patterns).1.2.1 : ℚ) /
         ((executeSuite st.fw g st.patterns).1.2.2 : ℚ)) * 100 else 0)
    exact (fitness_bounds _ _ hble).1
  · show (if 0 < (executeSuite st.fw g st.patterns).1.2.2 then
        (((executeSuite st.fw g st.patterns).1.2.1 : ℚ) /
         ((executeSuite st.fw g st.patterns).1.2.2 : ℚ)) * 100 else 0) ≤ 100
    exact (fitness_bounds _ _ hble).2
  · exact hble
  · show analyzeResults (executeSuite st.fw g st.patterns).1.1 ≠ [] ↔
        (executeSuite st.fw g st.patterns).1.2.1 <
          (executeSuite st.fw g st.patterns).1.2.2
    rw [h1, h2, Ne, analyzeResults_eq_nil_iff]
    exact (countP_lt_length_iff _).symm

/-- Claim C10: with an empty active pattern set `run_generation` still
completes (the blocked/total division is guarded by a `total > 0`
check) and reports `fitness_score = 0`; likewise
`GenerationReport.success_rate` is 0 whenever `attacks_total = 0`. -/
theorem c10_empty_generation :
    (∀ (s : OrchestratorState) (g : Nat), s.patterns = [] →
       ∃ r s', runGeneration s g = .ok (r, s') ∧
         r.fitness_score = 0 ∧ r.attacks_total = 0) ∧
    (∀ r : GenerationReport, r.attacks_total = 0 → r.success_rate = 0) := by
  constructor
  · intro s g hp
    have hrg : runGeneration s g =
        .ok (buildGenerationOutcome s g (([], 0, 0), [], s.fw)
              (allDefenseTypes.foldl activateFw s.fw,
               ["🚨 Emergency: Activated ALL defenses"])) := by
      simp only [runGeneration, hp]
      rfl
    exact ⟨_, _, hrg, rfl, rfl⟩
  · intro r h
    unfold GenerationReport.success_rate
    rw [if_pos h]

/-- Witness for C10 at the concrete empty orchestrator and an
attack-free report. -/
theorem c10_empty_generation_witness :
    (∃ r s', runGeneration emptyOrchestrator 0 = .ok (r, s') ∧
       r.fitness_score = 0 ∧ r.attacks_total = 0) ∧
    GenerationReport.success_rate { generation := 0 } = 0 :=
  ⟨c10_empty_generation.1 emptyOrchestrator 0 rfl,
   c10_empty_generation.2 { generation := 0 } rfl⟩

end RedTeam
